import Mathlib

/-
  Verification of the sparkpy lazy-entity model and paginated container.

  Shallow embedding of:
    src/sparkpy/models/base.py  (SparkBase, SparkProperty - the newer, authoritative variant)
    src/models/container.py     (SparkContainer)

  Python values are modelled by `PyVal`; exceptions by `Except PyErr`; the
  transport collaborator (session) by an explicit `World` record that counts
  requests and logs the fetched URLs.  The identifier-codec utilities
  (`decode_api_id`, `is_uuid`, `is_api_id`, `uuid_to_api_id`) live in a module
  that is not part of the provided sources; they are modelled from the spec
  (sections 3, 4.1 and 6) and carry a `Modelled from the spec:` doc comment.
-/

set_option autoImplicit false
set_option linter.unusedVariables false

/-- A Python/JSON value as it flows through the sparkpy core: `None`, booleans,
strings, integers, lists, JSON objects (dicts), a constructed nested sub-entity
(produced by a descriptor's `item_class`), and a `SparkTime` wrapper. -/
inductive PyVal where
  | none
  | bool (b : Bool)
  | str (s : String)
  | int (n : Nat)
  | list (xs : List PyVal)
  | dict (kvs : List (String × PyVal))
  | entity (raw : PyVal)
  | time (v : PyVal)

/-- A Python dict with string keys, as a first-match association list. -/
def PyDict := List (String × PyVal)

/-- Python truthiness of a value (`if value:`):
`None`, `False`, `''`, `0`, `[]` and the empty dict are falsy. -/
def truthy : PyVal → Bool
  | .none => false
  | .bool b => b
  | .str s => !s.data.isEmpty
  | .int n => n != 0
  | .list xs => !xs.isEmpty
  | .dict kvs => !kvs.isEmpty
  | .entity _ => true
  | .time _ => true

/-- `v is None` test used by the attribute machinery. -/
def isNone : PyVal → Bool
  | .none => true
  | _ => false

/-- `data.get(key)`: first-match lookup, defaulting to `None`. -/
def dict_get (d : PyDict) (k : String) : PyVal :=
  (List.lookup k d).getD .none

/-- `key in data`. -/
def dict_has (d : PyDict) (k : String) : Bool :=
  (List.lookup k d).isSome

/-- Deleting a key from a dict (used to state "as if the key were absent"). -/
def dict_del (d : PyDict) (k : String) : PyDict :=
  d.filter (fun kv => !(kv.1 == k))

/-- Python exceptions raised by the modelled code. Messages follow the source
text, with the interpolated `self` repr omitted. -/
inductive PyErr where
  | attributeError (msg : String)
  | typeError (msg : String)
  | keyError (msg : String)
  | valueError (msg : String)
  | indexError (msg : String)
  | stopIteration
  | exception (msg : String)
  deriving DecidableEq

/-- The fixed magic marker of an opaque Spark API id, matched verbatim by
`SparkBase._load_from_id` (`_id.startswith('Y2lzY29zcGFyazovL')`). -/
def MAGIC : String := "Y2lzY29zcGFyazovL"

/-- Split a character list on a separator (all segments, in order). -/
def splitChar (sep : Char) : List Char → List Char → List (List Char)
  | [], acc => [acc.reverse]
  | c :: rest, acc =>
    if c == sep then acc.reverse :: splitChar sep rest []
    else splitChar sep rest (c :: acc)

/-- The structured form of a decoded opaque identifier
(`decode_api_id` returns a mapping with keys `uuid`, `path`, `id`). -/
structure DecodedId where
  uuid : String
  path : String
  id : String
  deriving DecidableEq

/-- Modelled from the spec: `decode(opaque_id)` of the identifier codec
(`sparkpy.utils.decode_api_id`, not among the provided sources).  Per spec
section 4.1 it fails with `MalformedIdentifier` (raised as a `ValueError` here)
if the string lacks the magic prefix or the payload does not split into exactly
a path segment and a uuid segment; the base-encoding step is modelled as the
identity, which the spec permits ("exact encoding is an implementation
detail; only the round-trip and prefix-detection contract are load-bearing"). -/
def decode_api_id (s : String) : Except PyErr DecodedId :=
  if MAGIC.data.isPrefixOf s.data then
    match splitChar ':' (s.data.drop MAGIC.data.length) [] with
    | [p, u] => .ok ⟨String.mk u, String.mk p, s⟩
    | _ => .error (.valueError "MalformedIdentifier")
  else .error (.valueError "MalformedIdentifier")

/-- Modelled from the spec: the reverse constructor
`uuid_and_path_to_opaque_id(path, uuid)` of the identifier codec
(`sparkpy.utils.uuid_to_api_id`, not among the provided sources): the
magic-prefixed encoding of `resource_path + ":" + uuid`. -/
def uuid_to_api_id (path uuid : String) : String :=
  MAGIC ++ (path ++ (":" ++ uuid))

/-- Modelled from the spec: `is_opaque_id(s)` pure predicate of the identifier
codec (`sparkpy.utils.is_api_id`, not among the provided sources): the string
decodes as an opaque id.  Spec section 4.1: used for dispatch, never raises. -/
def is_api_id (s : String) : Bool :=
  match decode_api_id s with
  | .ok _ => true
  | .error _ => false

/-- Hexadecimal digit test for the uuid shape. -/
def isHexDigit (c : Char) : Bool :=
  ('0' ≤ c && c ≤ '9') || ('a' ≤ c && c ≤ 'f') || ('A' ≤ c && c ≤ 'F')

/-- Modelled from the spec: `is_uuid(s)` pure predicate of the identifier codec
(`sparkpy.utils.is_uuid`, not among the provided sources): a bare RFC-4122
string, `8-4-4-4-12` hexadecimal groups.  Never raises. -/
def is_uuid (s : String) : Bool :=
  match splitChar '-' s.data [] with
  | [a, b, c, d, e] =>
    a.length == 8 && b.length == 4 && c.length == 4 && d.length == 4 &&
      e.length == 12 && (a ++ b ++ c ++ d ++ e).all isHexDigit
  | _ => false

/-- `class SparkProperty` (src/sparkpy/models/base.py): immutable metadata for
one schema field.  `item_class` is `None` or a nested entity type; the model
keeps only its presence as a `Bool`, and `load_props` tags cast elements with
`PyVal.entity`. -/
structure SparkProperty where
  prop : String
  mutable : Bool := false
  item_class : Bool := false
  optional : Bool := false
  deriving DecidableEq

/-- One HTTP response from the transport collaborator:
status code, JSON body, and an optional "next page" link. -/
structure HttpResponse where
  status_code : Nat := 200
  body : PyDict := []
  next : Option String := Option.none

/-- The external world: the remote server (a pure map from URL to response),
a request counter and URL log for `session.get`, a counter for the abstract
`update` mutation, and the clock read by `SparkTime()`. -/
structure World where
  server : String → HttpResponse
  fetchCount : Nat := 0
  updateCount : Nat := 0
  time : Nat := 0
  log : List String := []

/-- `self.session.get(url)`: one blocking request, counted and logged. -/
def http_get (w : World) (u : String) : HttpResponse × World :=
  (w.server u, { w with fetchCount := w.fetchCount + 1, log := w.log ++ [u] })

/-- The instance state of a `SparkBase` object.  `id`, `path`, `parent`,
`uuid`, `loaded`, `loaded_at` model the underscore-prefixed instance
attributes; `attrs` is the rest of the instance dict (the schema-declared
field values, set through `super().__setattr__`); `PROPERTIES` is the class
schema supplied by the concrete resource type.  The parent back-reference is
kept only as "a session is reachable" (`self.parent` truthiness), which is all
the base class uses it for. -/
structure SparkBase where
  id : String
  path : String
  parent : Bool
  uuid : Option String
  loaded : Bool
  loaded_at : PyVal
  attrs : PyDict
  PROPERTIES : List SparkProperty

/-- `self.url`: the entity's canonical URL
`https://api.ciscospark.com/v1/{path}/{id}`. -/
def entity_url (path id : String) : String :=
  "https://api.ciscospark.com/v1/" ++ (path ++ ("/" ++ id))

/-- Class-level attribute names of `SparkBase` that are data descriptors
(properties); an instance attribute of one of these names never lands in the
plain instance dict. -/
def reservedNames : List String :=
  ["id", "loaded", "loaded_at", "uuid", "path", "parent", "session", "url",
   "lastActivity", "created", "PROPERTIES", "API_BASE"]

/-- A schema field name that is stored as a plain instance-dict entry: not one
of the `SparkBase` properties and not underscore-prefixed (the underscore
attributes back the properties). -/
def plainName (n : String) : Bool :=
  !reservedNames.contains n &&
    (match n.data with
     | c :: _ => c != '_'
     | [] => true)

/-- Update of the instance dict (`object.__setattr__` on a plain name):
Python dict assignment; with first-match lookup, pushing the pair in front
has the same observable behavior. -/
def aset (l : PyDict) (k : String) (v : PyVal) : PyDict :=
  (k, v) :: l

/-- `object.__getattribute__(self, name)` (the `getter` kept by
`__getattribute__`): class data descriptors first, then the instance dict;
raises `AttributeError` for an unset name.  The property bodies of `id`,
`loaded`, `loaded_at`, `uuid`, `path`, `parent`, `session`, `url`,
`lastActivity` and `created` are inlined.  Methods and class attributes other
than these are called directly in the model and are not routed through here. -/
def obj_getattr (st : SparkBase) (name : String) : Except PyErr PyVal :=
  if name == "id" then .ok (.str st.id)
  else if name == "loaded" then .ok (.bool st.loaded)
  else if name == "loaded_at" then .ok st.loaded_at
  else if name == "uuid" then
    .ok (match st.uuid with | some u => .str u | Option.none => .none)
  else if name == "path" then .ok (.str st.path)
  else if name == "parent" then .ok (.bool st.parent)
  else if name == "url" then .ok (.str (entity_url st.path st.id))
  else if name == "session" then
    -- self._get_session() walks the parent chain to the root session
    if st.parent then .ok (.str "session")
    else .error (.attributeError "session")
  else if name == "lastActivity" then
    match List.lookup "_lastActivity" st.attrs with
    | some v => if truthy v then .ok (.time v) else .ok .none
    | Option.none => .error (.attributeError "_lastActivity")
  else if name == "created" then
    match List.lookup "_created" st.attrs with
    | some v => if truthy v then .ok (.time v) else .ok .none
    | Option.none => .error (.attributeError "_created")
  else if name == "_id" then .ok (.str st.id)
  else if name == "_path" then .ok (.str st.path)
  else if name == "_parent" then .ok (.bool st.parent)
  else if name == "_uuid" then
    .ok (match st.uuid with | some u => .str u | Option.none => .none)
  else if name == "_loaded" then .ok (.bool st.loaded)
  else if name == "_loaded_at" then .ok st.loaded_at
  else
    match List.lookup name st.attrs with
    | some v => .ok v
    | Option.none => .error (.attributeError ("has no attribute " ++ name))

/-- String payload of a value (for attributes that the source only ever
assigns strings to). -/
def strval : PyVal → String
  | .str s => s
  | _ => ""

/-- `object.__setattr__(self, key, value)` (the clean `setter` kept by
`_load_data` and `__setattr__`).  Writing a property that has a setter runs
that setter (`id` validates, `loaded` coerces with `bool`, `lastActivity` and
`created` store to their underscore slot); writing a getter-only property
(`uuid`, `path`, `parent`, `session`, `url`, and the abstract `PROPERTIES` and
`API_BASE`) raises `AttributeError` ("cant set attribute"); everything else is
a plain instance-dict set. -/
def obj_setattr (st : SparkBase) (key : String) (v : PyVal) : Except PyErr SparkBase :=
  if key == "id" then
    match v with
    | .str s =>
      if is_api_id s then .ok { st with id := s }
      else .error (.valueError "id Must be a valid Cisco Spark API ID")
    | _ => .error (.valueError "id Must be a valid Cisco Spark API ID")
  else if key == "loaded" then .ok { st with loaded := truthy v }
  else if key == "loaded_at" then .ok { st with loaded_at := v }
  else if key == "lastActivity" then .ok { st with attrs := aset st.attrs "_lastActivity" v }
  else if key == "created" then .ok { st with attrs := aset st.attrs "_created" v }
  else if key == "uuid" || key == "path" || key == "parent" || key == "session"
      || key == "url" || key == "PROPERTIES" || key == "API_BASE" then
    .error (.attributeError "cant set attribute")
  else if key == "_id" then .ok { st with id := strval v }
  else if key == "_path" then .ok { st with path := strval v }
  else if key == "_parent" then .ok { st with parent := truthy v }
  else if key == "_uuid" then
    .ok { st with uuid := match v with | .str s => some s | _ => Option.none }
  else if key == "_loaded" then .ok { st with loaded := truthy v }
  else if key == "_loaded_at" then .ok { st with loaded_at := v }
  else .ok { st with attrs := aset st.attrs key v }

/-- `self.PROPERTIES[name]` and `self.PROPERTIES.get(name)`: schema lookup by
field name. -/
def lookupProp (props : List SparkProperty) (n : String) : Option SparkProperty :=
  props.find? (fun p => p.prop == n)

/-- The nested cast in `_load_data`: when the descriptor declares an
`item_class` and the value is a list, each element is recursively constructed
as a nested entity (`properties.item_class(item, parent=self._get_parent())`);
the model tags each element with `PyVal.entity`, keeping its construction
data (the parent link is not modelled). -/
def castVal (p : SparkProperty) (v : PyVal) : PyVal :=
  match v with
  | .list xs => if p.item_class then .list (xs.map PyVal.entity) else .list xs
  | v => v

/-- The descriptor loop of `_load_data`: for each schema descriptor, read the
same-named key from `data`; a truthy value is (cast and) set, a falsy or
absent value is set to `None` when the descriptor is optional, and otherwise
`TypeError` is raised at once. -/
def load_props (st : SparkBase) (props : List SparkProperty) (data : PyDict) :
    Except PyErr SparkBase :=
  match props with
  | [] => .ok st
  | p :: rest =>
    let value := dict_get data p.prop
    if truthy value then
      match obj_setattr st p.prop (castVal p value) with
      | .error e => .error e
      | .ok st1 => load_props st1 rest data
    else if p.optional then
      match obj_setattr st p.prop .none with
      | .error e => .error e
      | .ok st1 => load_props st1 rest data
    else .error (.typeError ("needs keyword-only argument " ++ p.prop))

/-- The final check of `_load_data`:
`all([key in data for key in self.PROPERTIES if not ...optional])`. -/
def required_all_present (props : List SparkProperty) (data : PyDict) : Bool :=
  props.all (fun p => p.optional || dict_has data p.prop)

/-- `SparkBase._load_data(data)`: run the descriptor loop (extra keys are only
logged as a warning in the source, which the model drops), then if every
required key is present in `data`, set `_loaded` and stamp `_loaded_at` with
the current time through the clean setter. -/
def load_data (st : SparkBase) (clock : Nat) (data : PyDict) : Except PyErr SparkBase :=
  match load_props st st.PROPERTIES data with
  | .error e => .error e
  | .ok st1 =>
    if required_all_present st.PROPERTIES data then
      match obj_setattr st1 "_loaded" (.bool true) with
      | .error e => .error e
      | .ok st2 => obj_setattr st2 "_loaded_at" (.int clock)
    else .ok st1

/-- `SparkBase._fetch_data()`: with a parent (hence a reachable session), one
`session.get(self.url)`; a 200 response is fed to `_load_data`, any other
status is silently ignored; without a parent, `Exception` is raised and no
request is made. -/
def fetch_data (st : SparkBase) (w : World) : Except PyErr SparkBase × World :=
  if st.parent then
    let (resp, w1) := http_get w (entity_url st.path st.id)
    if resp.status_code == 200 then
      match load_data st w1.time resp.body with
      | .ok st1 => (.ok st1, w1)
      | .error e => (.error e, w1)
    else (.ok st, w1)
  else (.error (.exception "Cannot fetch data without a session"), w)

/-- `SparkBase.__getattribute__(name)`: try the clean getter, swallowing
`AttributeError`; a non-`None` result is returned as is.  Otherwise the name
must be in the schema (`AttributeError` if not); a loaded entity returns
`None` for an optional field; else `_fetch_data()` runs once and the getter is
retried, an `AttributeError` from that attempt yielding `None` for optional
descriptors and `TypeError` for required ones.  On the error paths the
partially mutated instance is not observed further, so the pre-fetch state is
returned alongside the error. -/
def spark_getattribute (st : SparkBase) (w : World) (name : String) :
    Except PyErr (PyVal × SparkBase) × World :=
  let attr : PyVal :=
    match obj_getattr st name with
    | .ok v => v
    | .error _ => .none
  if !(isNone attr) then (.ok (attr, st), w)
  else
    match lookupProp st.PROPERTIES name with
    | Option.none => (.error (.attributeError ("has no attribute " ++ name)), w)
    | some prop =>
      if st.loaded && prop.optional then (.ok (.none, st), w)
      else
        match fetch_data st w with
        | (.error (.attributeError _), w1) =>
          if prop.optional then (.ok (.none, st), w1)
          else (.error (.typeError ("needs keyword-only argument " ++ name)), w1)
        | (.error e, w1) => (.error e, w1)
        | (.ok st1, w1) =>
          match obj_getattr st1 name with
          | .ok v => (.ok (v, st1), w1)
          | .error _ =>
            if prop.optional then (.ok (.none, st1), w1)
            else (.error (.typeError ("needs keyword-only argument " ++ name)), w1)

/-- Modelled from the spec: the abstract per-resource `update(data)` operation
(implemented by the concrete resource subclasses, which are external
collaborators not among the provided sources): it issues the appropriate
remote mutation call; the model records the call and leaves the local
reflection of the value to the caller's subsequent setter. -/
def update_call (st : SparkBase) (w : World) (_key : String) (_v : PyVal) :
    Except PyErr SparkBase × World :=
  (.ok st, { w with updateCount := w.updateCount + 1 })

/-- `SparkBase.__setattr__(key, value)`: for a schema-declared key, first
`_fetch_data()` when the entity is not yet loaded, then either delegate a
mutable write to `update` or raise `AttributeError` ("read only") for an
immutable one; in the non-raising cases, and for any non-schema key, fall
through to the clean setter. -/
def spark_setattr (st : SparkBase) (w : World) (key : String) (value : PyVal) :
    Except PyErr SparkBase × World :=
  match lookupProp st.PROPERTIES key with
  | some p =>
    let fetched : Except PyErr SparkBase × World :=
      if !st.loaded then fetch_data st w else (.ok st, w)
    match fetched with
    | (.error e, w1) => (.error e, w1)
    | (.ok st1, w1) =>
      if p.mutable then
        match update_call st1 w1 key value with
        | (.error e, w2) => (.error e, w2)
        | (.ok st2, w2) =>
          match obj_setattr st2 key value with
          | .error e => (.error e, w2)
          | .ok st3 => (.ok st3, w2)
      else (.error (.attributeError (key ++ " is read only")), w1)
  | Option.none =>
    match obj_setattr st key value with
    | .error e => (.error e, w)
    | .ok st1 => (.ok st1, w)

/-- The fixed ordered candidate resource paths probed for a bare uuid. -/
def candidate_paths : List String :=
  ["messages", "rooms", "people", "memberships", "webhooks", "teams",
   "teams/memberships", "organizations", "licenses"]

/-- The probing loop of `_load_from_id`: for each candidate path,
`self.path = path` (through the overridden `__setattr__`), `self._fetch_data()`,
and on `self._loaded` record the uuid and stop; when the candidates are
exhausted the `for`/`else` clause raises `ValueError` (the spec's
`UnresolvableIdentifier`). -/
def probe_paths (st : SparkBase) (w : World) (paths : List String) (u : String) :
    Except PyErr SparkBase × World :=
  match paths with
  | [] => (.error (.valueError "Spark API ID or a UUIDv4 string required"), w)
  | p :: rest =>
    match spark_setattr st w "path" (.str p) with
    | (.error e, w1) => (.error e, w1)
    | (.ok st1, w1) =>
      match fetch_data st1 w1 with
      | (.error e, w2) => (.error e, w2)
      | (.ok st2, w2) =>
        if st2.loaded then (.ok { st2 with uuid := some u }, w2)
        else probe_paths st2 w2 rest u

/-- `SparkBase._load_from_id(_id)`: a magic-prefixed string is decoded
(setting `_uuid`, `_path`, `_id`); otherwise a uuid-shaped string enters the
probing loop; any other string falls through unchanged (the constructor's
trailing decode then rejects it).  The underscore attribute writes are plain
instance-dict sets as long as the schema declares no underscore-prefixed or
reserved names, which every theorem below assumes via `plainName`. -/
def load_from_id (st : SparkBase) (w : World) (a : String) :
    Except PyErr SparkBase × World :=
  if MAGIC.data.isPrefixOf a.data then
    match decode_api_id a with
    | .error e => (.error e, w)
    | .ok d => (.ok { st with uuid := some d.uuid, path := d.path, id := d.id }, w)
  else if is_uuid a then probe_paths st w candidate_paths a
  else (.ok st, w)

/-- `SparkBase.__init__(*args, **kwargs)` (newer variant): set the bookkeeping
attributes (`self._id = ''`, `self._path = kwargs.pop('path')` - `KeyError`
when absent - `self._parent = kwargs.pop('parent', False)`, ...); then either
process a positional id through `_load_from_id`, or load a keyword field set
containing `id` through `_load_data`, or raise `ValueError`; finally re-derive
`_uuid` and `_path` by decoding `self.id`. -/
def spark_init (props : List SparkProperty) (arg : Option String) (kwargs : PyDict)
    (w : World) : Except PyErr SparkBase × World :=
  match List.lookup "path" kwargs with
  | Option.none => (.error (.keyError "path"), w)
  | some pathv =>
    let kw1 := kwargs.eraseP (fun kv => kv.1 == "path")
    let parentv := (List.lookup "parent" kw1).getD (.bool false)
    let kw2 := kw1.eraseP (fun kv => kv.1 == "parent")
    let st0 : SparkBase :=
      ⟨"", strval pathv, truthy parentv, Option.none, false, .none, [], props⟩
    let step : Except PyErr SparkBase × World :=
      match arg with
      | some a => load_from_id st0 w a
      | Option.none =>
        if dict_has kw2 "id" then
          match load_data { st0 with id := strval (dict_get kw2 "id") } w.time kw2 with
          | .ok st1 => (.ok st1, w)
          | .error e => (.error e, w)
        else (.error (.valueError "A valid Spark ID is required"), w)
    match step with
    | (.error e, w1) => (.error e, w1)
    | (.ok st2, w1) =>
      match decode_api_id st2.id with
      | .error e => (.error e, w1)
      | .ok d => (.ok { st2 with uuid := some d.uuid, path := d.path }, w1)

/-- The right operand of `==`/`!=` on an entity: a string, another entity, or
anything else. -/
inductive EqOther where
  | str (s : String)
  | ent (st : SparkBase)
  | other

/-- `is_api_id` as applied by `__eq__` to an arbitrary operand.  Modelled from
the spec: the codec predicates are string-shape predicates "used for dispatch
(never raise)", so a non-string operand simply fails the test. -/
def is_api_id_obj : EqOther → Bool
  | .str s => is_api_id s
  | _ => false

/-- `is_uuid` as applied by `__eq__` to an arbitrary operand (see
`is_api_id_obj`). -/
def is_uuid_obj : EqOther → Bool
  | .str s => is_uuid s
  | _ => false

/-- String payload of an equality operand (only consulted when the operand is
a string). -/
def eqOtherStr : EqOther → String
  | .str s => s
  | _ => ""

/-- `SparkBase.__eq__(other)` (newer variant): an opaque-id string compares
against `self._id`; a uuid string takes the branch
`uuid_to_api_id(self._id, self._path) == self._id`, which does not consult
`other` at all; everything else is unequal. -/
def spark_eq (st : SparkBase) (o : EqOther) : Bool :=
  if is_api_id_obj o then st.id == eqOtherStr o
  else if is_uuid_obj o then uuid_to_api_id st.id st.path == st.id
  else false

/-- `SparkBase.__hash__`: `hash(self.id)`. -/
def spark_hash (st : SparkBase) : UInt64 :=
  hash st.id

/-- Modelled from the spec: the container's target entity type (`self.cls`) is
a concrete resource subclass - an external collaborator not among the provided
sources - whose constructor `cls(**record)` builds an entity from a raw
record.  The model keeps the record. -/
structure MadeEntity where
  raw : PyVal

/-- `self.cls(**record)` (see `MadeEntity`). -/
def cls_construct (d : PyVal) : MadeEntity := ⟨d⟩

/-- Attribute access on a raw JSON value (`item.id` in the container's
dict-style lookup).  The cached raw records are the JSON objects and values of
the page bodies; none of the Python types they decode to (dict, list, str,
int, bool, NoneType) has an `id` attribute, so this access raises
`AttributeError`. -/
def py_attr (_v : PyVal) (name : String) : Except PyErr PyVal :=
  .error (.attributeError ("object has no attribute " ++ name))

/-- `item.id == key` where `key` is a string: Python `==` of a value against a
string (False for any non-string value). -/
def eqStrKey (v : PyVal) (key : String) : Bool :=
  match v with
  | .str s => s == key
  | _ => false

/-- The list comprehension
`[item for item in self._items if item.id == key]`, evaluated left to right. -/
def id_filter (items : List PyVal) (key : String) : Except PyErr (List PyVal) :=
  match items with
  | [] => .ok []
  | it :: rest =>
    match py_attr it "id" with
    | .error e => .error e
    | .ok v =>
      match id_filter rest key with
      | .error e => .error e
      | .ok tail => .ok (if eqStrKey v key then it :: tail else tail)

/-- The suspension state of the `_make_generator()` generator object: not yet
started; suspended at the `yield` with the current response's "next" link and
the remaining local `items` deque; or finished (fell off the end or
returned). -/
inductive GenState where
  | unstarted
  | suspended (next : Option String) (pending : List PyVal)
  | done

/-- `SparkContainer` state: the collection base URL of the target type
(`self.cls.api_base`), the growing cache `self._items` of raw records, the
`self._finished` flag, and the generator `self._generator`. -/
structure SparkContainer where
  api_base : String
  items : List PyVal
  finished : Bool
  gen : GenState

/-- The elements of a JSON list value (`deque(data.get('items', []))`). -/
def pyListOf (v : PyVal) : List PyVal :=
  match v with
  | .list xs => xs
  | _ => []

/-- One `self._generator.__next__()` step of `_make_generator`.  First call:
fetch the collection base URL; an empty `items` list ends the generator at
once (note: without setting `_finished`).  While the local deque is non-empty,
pop, append to the cache and yield.  On resuming with an empty deque: if the
response carries a "next" link, fetch it and extend the local deque - but the
`return` that follows ends the generator immediately, discarding the items
just fetched; with no "next" link, set `_finished` and end. -/
def gen_next (c : SparkContainer) (w : World) :
    Except PyErr PyVal × SparkContainer × World :=
  match c.gen with
  | .done => (.error .stopIteration, c, w)
  | .unstarted =>
    let (resp, w1) := http_get w c.api_base
    match pyListOf (dict_get resp.body "items") with
    | [] => (.error .stopIteration, { c with gen := .done }, w1)
    | it :: rest =>
      (.ok it, { c with items := c.items ++ [it], gen := .suspended resp.next rest }, w1)
  | .suspended nxt pending =>
    match pending with
    | it :: rest =>
      (.ok it, { c with items := c.items ++ [it], gen := .suspended nxt rest }, w)
    | [] =>
      match nxt with
      | some u =>
        let (resp, w1) := http_get w u
        -- items.extend(response.json()['items']); return
        match List.lookup "items" resp.body with
        | Option.none => (.error (.keyError "items"), { c with gen := .done }, w1)
        | some _ => (.error .stopIteration, { c with gen := .done }, w1)
      | Option.none =>
        (.error .stopIteration, { c with gen := .done, finished := true }, w)

/-- `self._items[key]` on a deque with a non-negative index: `IndexError` when
out of range. -/
def deque_at (items : List PyVal) (k : Nat) : Except PyErr PyVal :=
  match items.get? k with
  | some d => .ok d
  | Option.none => .error (.indexError "deque index out of range")

/-- The `while` loop of the list-style branch of `__getitem__`, with explicit
fuel.  While the cache does not cover `key` and the container is not finished,
advance the generator; `StopIteration` with the cache still short of `key`
raises `IndexError`, and otherwise (including the boundary `len == key`) the
cached record at `key` is returned - `deque_at` raising the `IndexError` for
the boundary.  Each successful advance grows the cache by one record, so from
fuel `key + 2` the fuel-exhaustion branch is unreachable (the loop guard fails
after at most `key + 1` advances). -/
def getitem_go (key : Nat) : Nat → SparkContainer → World →
    Except PyErr MadeEntity × SparkContainer × World
  | 0, c, w => (.error (.exception "loop fuel exhausted"), c, w)
  | fuel + 1, c, w =>
    if c.items.length ≤ key && !c.finished then
      match gen_next c w with
      | (.ok _, c1, w1) => getitem_go key fuel c1 w1
      | (.error .stopIteration, c1, w1) =>
        if c1.items.length < key then (.error (.indexError "index out of range"), c1, w1)
        else
          match deque_at c1.items key with
          | .ok d => (.ok (cls_construct d), c1, w1)
          | .error e => (.error e, c1, w1)
      | (.error e, c1, w1) => (.error e, c1, w1)
    else
      match deque_at c.items key with
      | .ok d => (.ok (cls_construct d), c, w)
      | .error e => (.error e, c, w)

/-- The list-style branch of `SparkContainer.__getitem__` for a non-negative
integer index. -/
def getitem_int (c : SparkContainer) (w : World) (key : Nat) :
    Except PyErr MadeEntity × SparkContainer × World :=
  getitem_go key (key + 2) c w

/-- An index passed to `SparkContainer.__getitem__`: a non-negative integer, a
string, or any other type. -/
inductive ContKey where
  | int (n : Nat)
  | str (s : String)
  | other

/-- What `__getitem__` returns: an entity constructed through `self.cls`, or
(on a dict-style cache hit) the raw cached record itself. -/
inductive ContResult where
  | ent (e : MadeEntity)
  | raw (d : PyVal)

/-- `SparkContainer.__getitem__(key)`: integer indices run the paging loop;
a string that is an opaque id first searches the cache (`item.id == key` on
each cached raw record), returning the first hit raw, and on a miss issues one
direct request against `self.cls.api_base + key` and constructs the entity
from the response body without touching the cache; any other key raises
`TypeError`. -/
def container_getitem (c : SparkContainer) (w : World) (key : ContKey) :
    Except PyErr ContResult × SparkContainer × World :=
  match key with
  | .int n =>
    match getitem_int c w n with
    | (.ok e, c1, w1) => (.ok (.ent e), c1, w1)
    | (.error e, c1, w1) => (.error e, c1, w1)
  | .str s =>
    if is_api_id s then
      match id_filter c.items s with
      | .error e => (.error e, c, w)
      | .ok (it :: _) => (.ok (.raw it), c, w)
      | .ok [] =>
        let (resp, w1) := http_get w (c.api_base ++ s)
        (.ok (.ent (cls_construct (.dict resp.body))), c, w1)
    else (.error (.typeError "Indices must be an int or Spark API ID"), c, w)
  | .other => (.error (.typeError "Indices must be an int or Spark API ID"), c, w)

/-- Schemas are Python dicts, so their field names are pairwise distinct. -/
def namesNodup : List SparkProperty → Bool
  | [] => true
  | p :: rest => !(rest.any (fun q => q.prop == p.prop)) && namesNodup rest

/-- A well-formed schema: plain (instance-dict) field names, pairwise
distinct. -/
def wfSchema (props : List SparkProperty) : Bool :=
  props.all (fun p => plainName p.prop) && namesNodup props

/-- The value `_load_data` stores for a descriptor: the (cast) supplied value
when truthy, `None` otherwise. -/
def loadedVal (p : SparkProperty) (data : PyDict) : PyVal :=
  if truthy (dict_get data p.prop) then castVal p (dict_get data p.prop) else .none

/-- The first schema descriptor whose required value is absent or falsy - the
one at which the `_load_data` loop raises. -/
def firstMissing (props : List SparkProperty) (data : PyDict) : Option SparkProperty :=
  props.find? (fun p => !p.optional && !truthy (dict_get data p.prop))

/-! Concrete instances used by the claim witnesses and counterexamples. -/

/-- A two-field schema: required `title`, optional `teamId` (as on a Spark
room). -/
def roomProps : List SparkProperty :=
  [⟨"title", false, false, false⟩, ⟨"teamId", false, false, true⟩]

/-- The required `title` descriptor of `roomProps`. -/
def titleProp : SparkProperty := ⟨"title", false, false, false⟩

/-- The optional `teamId` descriptor of `roomProps`. -/
def teamIdProp : SparkProperty := ⟨"teamId", false, false, true⟩

/-- A concrete opaque id (`rooms` path, uuid `ab1`). -/
def roomOid : String := MAGIC ++ "rooms:ab1"

/-- A server body supplying only the required `title`. -/
def roomData : PyDict := [("title", .str "General")]

/-- A world whose server answers the canonical URL of `roomOid` with
`roomData` and anything else with a 404. -/
def roomW : World :=
  { server := fun u =>
      if u == entity_url "rooms" roomOid then { status_code := 200, body := roomData }
      else { status_code := 404 } }

/-- An entity freshly constructed from `roomOid` (unloaded, parent set). -/
def freshRoom : SparkBase := ⟨roomOid, "rooms", true, some "ab1", false, .none, [], roomProps⟩

/-- A schema with two required fields, used to exhibit the `_load_data`
behavior on missing required fields. -/
def twoReqProps : List SparkProperty :=
  [⟨"title", false, false, false⟩, ⟨"emails", false, false, false⟩]

/-- An unloaded entity whose schema is `twoReqProps`. -/
def twoReqSt : SparkBase :=
  ⟨MAGIC ++ "rooms:c2", "rooms", false, Option.none, false, .none, [], twoReqProps⟩

/-! Concrete pagination instances: a collection server returning pages of
size 3 across 2 pages (5 items total) plus a final empty page. -/

/-- The collection base URL of the container's entity type
(`self.cls.api_base`). -/
def pageBase : String := "https://api.ciscospark.com/v1/rooms"

/-- The raw record of the i-th collection item. -/
def pageRec (i : Nat) : PyVal := .dict [("id", .str ("id" ++ toString i))]

/-- The paging world: page 1 holds items 0-2 with a next link, page 2 holds
items 3-4 with a next link, page 3 is empty with no next link. -/
def pageW : World :=
  { server := fun u =>
      if u == pageBase then
        { status_code := 200, body := [("items", .list [pageRec 0, pageRec 1, pageRec 2])],
          next := some (pageBase ++ "?p=2") }
      else if u == pageBase ++ "?p=2" then
        { status_code := 200, body := [("items", .list [pageRec 3, pageRec 4])],
          next := some (pageBase ++ "?p=3") }
      else if u == pageBase ++ "?p=3" then
        { status_code := 200, body := [("items", .list [])] }
      else { status_code := 404 } }

/-- A fresh container over `pageBase`. -/
def pageC0 : SparkContainer := ⟨pageBase, [], false, .unstarted⟩

/-- The container after `at(0)`: one cached item, generator suspended inside
page 1. -/
def pageC1 : SparkContainer :=
  ⟨pageBase, [pageRec 0], false, .suspended (some (pageBase ++ "?p=2")) [pageRec 1, pageRec 2]⟩

/-- The container after `at(4)`: only page 1 cached, generator dead,
`finished` never set. -/
def pageC2 : SparkContainer := ⟨pageBase, [pageRec 0, pageRec 1, pageRec 2], false, .done⟩

/-- A container whose cache holds one raw record (for the key-lookup hit). -/
def hitC : SparkContainer := ⟨pageBase, [pageRec 0], false, .suspended Option.none []⟩

/-- A world serving the direct fetch-by-id URL for `roomOid`. -/
def byIdW : World :=
  { server := fun u =>
      if u == pageBase ++ roomOid then
        { status_code := 200, body := [("id", .str roomOid), ("title", .str "General")] }
      else { status_code := 404 } }

/-- A uuid-shaped string for the `__eq__` uuid branch. -/
def c4uuid : String := "aaaabbbb-cccc-dddd-eeee-ffff00001111"

/-- A loaded entity whose opaque id was built from `c4uuid` and path
`rooms` - the exact situation the spec's uuid-equality clause describes. -/
def c4ent : SparkBase :=
  ⟨uuid_to_api_id "rooms" c4uuid, "rooms", false, some c4uuid, true, .none, [], roomProps⟩

/-- A fully loaded entity with the same opaque id as `freshRoom`. -/
def loadedRoom : SparkBase :=
  ⟨roomOid, "rooms", true, some "ab1", true, .int 0,
   [("teamId", .none), ("title", .str "General")], roomProps⟩

/-- A uuid-shaped string handed to the constructor to trigger probing
resolution. -/
def c6uuid : String := "deadbeef-aaaa-bbbb-cccc-001122334455"

/-! Helper lemmas about plain names and the clean getter/setter. -/

theorem plain_beq_false {n : String} (h : plainName n = true) {m : String}
    (hm : reservedNames.contains m = true) : (n == m) = false := by
  cases hb : n == m with
  | false => rfl
  | true =>
    exfalso
    have hnm : n = m := eq_of_beq hb
    subst hnm
    unfold plainName at h
    rw [Bool.and_eq_true] at h
    rw [hm] at h
    simp at h

theorem plain_head_ne {n : String} (h : plainName n = true) {m : String}
    (hm : m.data.head? = some '_') : (n == m) = false := by
  cases hb : n == m with
  | false => rfl
  | true =>
    exfalso
    have hnm : n = m := eq_of_beq hb
    subst hnm
    unfold plainName at h
    rw [Bool.and_eq_true] at h
    obtain ⟨-, h2⟩ := h
    cases hd : n.data with
    | nil => rw [hd] at hm; simp at hm
    | cons c cs =>
      rw [hd] at hm h2
      simp at hm
      rw [hm] at h2
      simp at h2

theorem obj_getattr_plain (st : SparkBase) {n : String} (h : plainName n = true) :
    obj_getattr st n =
      (match List.lookup n st.attrs with
       | some v => .ok v
       | Option.none => .error (.attributeError ("has no attribute " ++ n))) := by
  unfold obj_getattr
  rw [plain_beq_false h (m := "id") (by decide),
      plain_beq_false h (m := "loaded") (by decide),
      plain_beq_false h (m := "loaded_at") (by decide),
      plain_beq_false h (m := "uuid") (by decide),
      plain_beq_false h (m := "path") (by decide),
      plain_beq_false h (m := "parent") (by decide),
      plain_beq_false h (m := "url") (by decide),
      plain_beq_false h (m := "session") (by decide),
      plain_beq_false h (m := "lastActivity") (by decide),
      plain_beq_false h (m := "created") (by decide),
      plain_head_ne h (m := "_id") (by decide),
      plain_head_ne h (m := "_path") (by decide),
      plain_head_ne h (m := "_parent") (by decide),
      plain_head_ne h (m := "_uuid") (by decide),
      plain_head_ne h (m := "_loaded") (by decide),
      plain_head_ne h (m := "_loaded_at") (by decide)]
  simp

theorem obj_setattr_plain (st : SparkBase) {k : String} (h : plainName k = true) (v : PyVal) :
    obj_setattr st k v = .ok { st with attrs := aset st.attrs k v } := by
  unfold obj_setattr
  rw [plain_beq_false h (m := "id") (by decide),
      plain_beq_false h (m := "loaded") (by decide),
      plain_beq_false h (m := "loaded_at") (by decide),
      plain_beq_false h (m := "lastActivity") (by decide),
      plain_beq_false h (m := "created") (by decide),
      plain_beq_false h (m := "uuid") (by decide),
      plain_beq_false h (m := "path") (by decide),
      plain_beq_false h (m := "parent") (by decide),
      plain_beq_false h (m := "session") (by decide),
      plain_beq_false h (m := "url") (by decide),
      plain_beq_false h (m := "PROPERTIES") (by decide),
      plain_beq_false h (m := "API_BASE") (by decide),
      plain_head_ne h (m := "_id") (by decide),
      plain_head_ne h (m := "_path") (by decide),
      plain_head_ne h (m := "_parent") (by decide),
      plain_head_ne h (m := "_uuid") (by decide),
      plain_head_ne h (m := "_loaded") (by decide),
      plain_head_ne h (m := "_loaded_at") (by decide)]
  simp

theorem find_prop_self {props : List SparkProperty} {p : SparkProperty}
    (hnd : namesNodup props = true) (hp : p ∈ props) :
    lookupProp props p.prop = some p := by
  induction props with
  | nil => cases hp
  | cons q rest ih =>
    unfold namesNodup at hnd
    rw [Bool.and_eq_true] at hnd
    obtain ⟨hq, hrest⟩ := hnd
    cases hp with
    | head =>
      unfold lookupProp
      simp [List.find?]
    | tail _ hmem =>
      have hne : (q.prop == p.prop) = false := by
        cases hb : q.prop == p.prop with
        | false => rfl
        | true =>
          exfalso
          have heq : q.prop = p.prop := eq_of_beq hb
          have : rest.any (fun r => r.prop == q.prop) = true := by
            rw [List.any_eq_true]
            exact ⟨p, hmem, by rw [heq]; exact beq_self_eq_true _⟩
          rw [this] at hq
          simp at hq
      unfold lookupProp
      rw [List.find?]
      rw [hne]
      exact ih hrest hmem

theorem beq_symm_false {a b : String} (h : (a == b) = false) : (b == a) = false := by
  cases hb : b == a with
  | false => rfl
  | true =>
    exfalso
    have : b = a := eq_of_beq hb
    subst this
    rw [beq_self_eq_true] at h
    cases h

theorem dict_get_truthy_has {d : PyDict} {k : String}
    (h : truthy (dict_get d k) = true) : dict_has d k = true := by
  unfold dict_get at h
  unfold dict_has
  cases hl : List.lookup k d with
  | none => rw [hl] at h; exact absurd h (by decide)
  | some v => rfl

theorem castVal_not_none {p : SparkProperty} {v : PyVal} (h : truthy v = true) :
    isNone (castVal p v) = false := by
  cases v with
  | none => cases h
  | list xs =>
    unfold castVal
    cases p.item_class <;> rfl
  | _ => rfl

/-- The `_load_data` descriptor loop succeeds on a well-formed schema whenever
every required descriptor finds a truthy value, touches only the instance
dict, and stores `loadedVal` for every descriptor. -/
theorem load_props_ok :
    ∀ (props : List SparkProperty) (st : SparkBase) (data : PyDict),
      props.all (fun p => plainName p.prop) = true →
      namesNodup props = true →
      (∀ p ∈ props, p.optional = false → truthy (dict_get data p.prop) = true) →
      ∃ st', load_props st props data = .ok st' ∧
        st'.id = st.id ∧ st'.path = st.path ∧ st'.parent = st.parent ∧
        st'.uuid = st.uuid ∧ st'.loaded = st.loaded ∧ st'.loaded_at = st.loaded_at ∧
        st'.PROPERTIES = st.PROPERTIES ∧
        (∀ n : String, (∀ p ∈ props, (p.prop == n) = false) →
          List.lookup n st'.attrs = List.lookup n st.attrs) ∧
        (∀ p ∈ props, List.lookup p.prop st'.attrs = some (loadedVal p data)) := by
  intro props
  induction props with
  | nil =>
    intro st data _ _ _
    exact ⟨st, rfl, rfl, rfl, rfl, rfl, rfl, rfl, rfl, fun n _ => rfl,
      fun p hp => absurd hp (List.not_mem_nil p)⟩
  | cons p rest ih =>
    intro st data hplain hnd hreq
    rw [List.all_cons, Bool.and_eq_true] at hplain
    obtain ⟨hp_plain, hrest_plain⟩ := hplain
    unfold namesNodup at hnd
    rw [Bool.and_eq_true] at hnd
    obtain ⟨hany, hnd_rest⟩ := hnd
    have hrest_all : ∀ q ∈ rest, (q.prop == p.prop) = false := by
      intro q hq
      cases hb : q.prop == p.prop with
      | false => rfl
      | true =>
        exfalso
        have : rest.any (fun q => q.prop == p.prop) = true :=
          List.any_eq_true.mpr ⟨q, hq, hb⟩
        rw [this] at hany
        cases hany
    have hbody : load_props st (p :: rest) data =
        (if truthy (dict_get data p.prop) then
          match obj_setattr st p.prop (castVal p (dict_get data p.prop)) with
          | .error e => .error e
          | .ok st1 => load_props st1 rest data
        else if p.optional then
          match obj_setattr st p.prop .none with
          | .error e => .error e
          | .ok st1 => load_props st1 rest data
        else .error (.typeError ("needs keyword-only argument " ++ p.prop))) := rfl
    have hstep : load_props st (p :: rest) data =
        load_props { st with attrs := aset st.attrs p.prop (loadedVal p data) } rest data := by
      rw [hbody]
      cases htr : truthy (dict_get data p.prop) with
      | true =>
        rw [if_pos rfl]
        rw [obj_setattr_plain st hp_plain]
        have hv : loadedVal p data = castVal p (dict_get data p.prop) := by
          unfold loadedVal
          rw [htr]
          rw [if_pos rfl]
        rw [hv]
      | false =>
        have hopt : p.optional = true := by
          cases ho : p.optional with
          | true => rfl
          | false =>
            exfalso
            have := hreq p (List.mem_cons_self p rest) ho
            rw [this] at htr
            cases htr
        rw [if_neg (by decide)]
        rw [hopt]
        rw [if_pos rfl]
        rw [obj_setattr_plain st hp_plain]
        have hv : loadedVal p data = .none := by
          unfold loadedVal
          rw [htr]
          rw [if_neg (by decide)]
        rw [hv]
    obtain ⟨st', hload, hid, hpath, hpar, huuid, hloaded, hat, hprops, huntouched, hlook⟩ :=
      ih { st with attrs := aset st.attrs p.prop (loadedVal p data) } data hrest_plain hnd_rest
        (fun q hq hqo => hreq q (List.mem_cons_of_mem p hq) hqo)
    refine ⟨st', by rw [hstep]; exact hload, ?_, ?_, ?_, ?_, ?_, ?_, ?_, ?_, ?_⟩
    · rw [hid]
    · rw [hpath]
    · rw [hpar]
    · rw [huuid]
    · rw [hloaded]
    · rw [hat]
    · rw [hprops]
    · intro n hn
      have h1 := huntouched n (fun q hq => hn q (List.mem_cons_of_mem p hq))
      rw [h1]
      have hpn : (p.prop == n) = false := hn p (List.mem_cons_self p rest)
      show List.lookup n ((p.prop, loadedVal p data) :: st.attrs) = List.lookup n st.attrs
      rw [List.lookup]
      rw [beq_symm_false hpn]
    · intro q hq
      cases hq with
      | head =>
        have h1 := huntouched p.prop hrest_all
        rw [h1]
        show List.lookup p.prop ((p.prop, loadedVal p data) :: st.attrs) = _
        rw [List.lookup]
        rw [beq_self_eq_true]
      | tail _ hmem => exact hlook q hmem

/-- `_load_data` on a well-formed schema with truthy values for every required
descriptor: it succeeds, sets `loaded`, stamps `loaded_at`, and stores
`loadedVal` for every descriptor. -/
theorem load_data_ok (st : SparkBase) (data : PyDict) (clock : Nat)
    (hplain : st.PROPERTIES.all (fun p => plainName p.prop) = true)
    (hnd : namesNodup st.PROPERTIES = true)
    (hreq : ∀ p ∈ st.PROPERTIES, p.optional = false → truthy (dict_get data p.prop) = true) :
    ∃ st', load_data st clock data = .ok st' ∧
      st'.id = st.id ∧ st'.path = st.path ∧ st'.parent = st.parent ∧
      st'.uuid = st.uuid ∧ st'.loaded = true ∧ st'.loaded_at = .int clock ∧
      st'.PROPERTIES = st.PROPERTIES ∧
      (∀ p ∈ st.PROPERTIES, List.lookup p.prop st'.attrs = some (loadedVal p data)) := by
  obtain ⟨st1, hload, hid, hpath, hpar, huuid, hloaded, hat, hprops, hunt, hlook⟩ :=
    load_props_ok st.PROPERTIES st data hplain hnd hreq
  have hall : required_all_present st.PROPERTIES data = true := by
    unfold required_all_present
    rw [List.all_eq_true]
    intro p hp
    cases ho : p.optional with
    | true => rfl
    | false => rw [dict_get_truthy_has (hreq p hp ho)]; exact Bool.or_true _
  have e1 : obj_setattr st1 "_loaded" (.bool true) = .ok { st1 with loaded := true } := rfl
  have e2 : obj_setattr { st1 with loaded := true } "_loaded_at" (.int clock)
      = .ok { st1 with loaded := true, loaded_at := .int clock } := rfl
  refine ⟨{ st1 with loaded := true, loaded_at := .int clock }, ?_, hid, hpath, hpar, huuid,
    rfl, rfl, hprops, fun p hp => hlook p hp⟩
  simp only [load_data, hload]
  rw [hall]
  rw [if_pos rfl]
  rw [e1]
  exact e2

theorem decode_ok_prefix {s : String} {d : DecodedId} (h : decode_api_id s = .ok d) :
    MAGIC.data.isPrefixOf s.data = true := by
  cases hp : MAGIC.data.isPrefixOf s.data with
  | true => rfl
  | false =>
    exfalso
    unfold decode_api_id at h
    rw [hp] at h
    rw [if_neg (by decide)] at h
    cases h

/-- Constructing an entity from only a valid opaque id: the constructor
decodes the id, issues no request, and leaves every schema field unset. -/
theorem spark_init_from_full_id (props : List SparkProperty) (pv : PyVal) (w : World)
    {oid u pa : String} (hdec : decode_api_id oid = .ok ⟨u, pa, oid⟩) :
    spark_init props (some oid) [("path", pv), ("parent", .bool true)] w =
      (.ok ⟨oid, pa, true, some u, false, .none, [], props⟩, w) := by
  have hpre : MAGIC.data.isPrefixOf oid.data = true := decode_ok_prefix hdec
  have h2 : load_from_id ⟨"", strval pv, true, Option.none, false, .none, [], props⟩ w oid =
      (.ok ⟨oid, pa, true, some u, false, .none, [], props⟩, w) := by
    unfold load_from_id
    rw [hpre]
    rw [if_pos rfl]
    rw [hdec]
  have h1 : spark_init props (some oid) [("path", pv), ("parent", .bool true)] w =
      (match load_from_id ⟨"", strval pv, true, Option.none, false, .none, [], props⟩ w oid with
       | (.error e, w1) => (.error e, w1)
       | (.ok st2, w1) =>
         match decode_api_id st2.id with
         | .error e => (.error e, w1)
         | .ok d => (.ok { st2 with uuid := some d.uuid, path := d.path }, w1)) := rfl
  rw [h1, h2]
  show (match decode_api_id oid with
        | Except.error e => ((Except.error e : Except PyErr SparkBase), w)
        | Except.ok d =>
          (Except.ok { (⟨oid, pa, true, some u, false, .none, [], props⟩ : SparkBase) with
                  uuid := some d.uuid, path := d.path }, w)) = _
  rw [hdec]

/-- Reading any schema-declared field of a loaded entity whose instance dict
holds the values stored by `_load_data` performs no request and returns the
stored value (`None` for an optional field that was absent or falsy). -/
theorem read_loaded_zero_fetch (st : SparkBase) (w : World) (data : PyDict)
    (p2 : SparkProperty)
    (hplain2 : plainName p2.prop = true)
    (hnd : namesNodup st.PROPERTIES = true)
    (hmem : p2 ∈ st.PROPERTIES)
    (hloaded : st.loaded = true)
    (hlookup : List.lookup p2.prop st.attrs = some (loadedVal p2 data))
    (hopt : truthy (dict_get data p2.prop) = false → p2.optional = true) :
    spark_getattribute st w p2.prop = (.ok (loadedVal p2 data, st), w) := by
  have hga : obj_getattr st p2.prop = .ok (loadedVal p2 data) := by
    rw [obj_getattr_plain st hplain2, hlookup]
  cases htr : truthy (dict_get data p2.prop) with
  | true =>
    have hnn : isNone (loadedVal p2 data) = false := by
      unfold loadedVal
      rw [htr, if_pos rfl]
      exact castVal_not_none htr
    unfold spark_getattribute
    rw [hga]
    simp only [hnn]
    simp
  | false =>
    have hlvnone : loadedVal p2 data = .none := by
      unfold loadedVal
      rw [htr, if_neg (by decide)]
    have hfind := find_prop_self hnd hmem
    unfold spark_getattribute
    rw [hga, hlvnone]
    simp only [hfind, hloaded, hopt htr]
    simp

/-- C1: for every entity constructed from only a valid opaque id (with a
parent supplying the session), the first read of any required schema-declared
field triggers exactly one fetch, against the entity's canonical URL (the
world's request count rises by exactly one and the canonical URL is appended
to the request log); and once the entity is `loaded=true`, reading any
schema-declared field triggers zero additional fetches (the world is returned
unchanged).  Hypotheses: the schema is well formed (plain, distinct names) and
the server answers the canonical URL with status 200 and a body holding a
truthy value for every required field. -/
theorem c1_first_read_one_fetch_then_zero
    (props : List SparkProperty) (data : PyDict) (oid u pa : String) (pv : PyVal)
    (w : World) (p1 : SparkProperty)
    (hwf : wfSchema props = true)
    (hreq : ∀ p ∈ props, p.optional = false → truthy (dict_get data p.prop) = true)
    (hdec : decode_api_id oid = .ok ⟨u, pa, oid⟩)
    (hsrv : w.server (entity_url pa oid) =
      { status_code := 200, body := data, next := Option.none })
    (hp1 : p1 ∈ props) (hp1r : p1.optional = false) :
    spark_init props (some oid) [("path", pv), ("parent", .bool true)] w =
      (.ok ⟨oid, pa, true, some u, false, .none, [], props⟩, w) ∧
    ∃ v1 st1,
      spark_getattribute ⟨oid, pa, true, some u, false, .none, [], props⟩ w p1.prop =
        (.ok (v1, st1),
         { w with fetchCount := w.fetchCount + 1, log := w.log ++ [entity_url pa oid] }) ∧
      st1.loaded = true ∧
      ∀ p2 ∈ props, ∃ v2,
        spark_getattribute st1
            { w with fetchCount := w.fetchCount + 1, log := w.log ++ [entity_url pa oid] }
            p2.prop =
          (.ok (v2, st1),
           { w with fetchCount := w.fetchCount + 1, log := w.log ++ [entity_url pa oid] }) := by
  unfold wfSchema at hwf
  rw [Bool.and_eq_true] at hwf
  obtain ⟨hplainAll, hnd⟩ := hwf
  have hp1plain : plainName p1.prop = true := by
    have := List.all_eq_true.mp hplainAll p1 hp1
    exact this
  obtain ⟨st1, hld, hid1, hpath1, hpar1, huuid1, hloaded1, hat1, hprops1, hlook1⟩ :=
    load_data_ok ⟨oid, pa, true, some u, false, .none, [], props⟩ data w.time hplainAll hnd hreq
  have hfetch : fetch_data ⟨oid, pa, true, some u, false, .none, [], props⟩ w =
      (.ok st1, { w with fetchCount := w.fetchCount + 1, log := w.log ++ [entity_url pa oid] }) := by
    simp only [fetch_data, http_get, hsrv]
    rw [hld]
    simp
  have hga0 : obj_getattr ⟨oid, pa, true, some u, false, .none, [], props⟩ p1.prop
      = .error (.attributeError ("has no attribute " ++ p1.prop)) := by
    rw [obj_getattr_plain _ hp1plain]
    rfl
  have hfind := find_prop_self hnd hp1
  have hga1 : obj_getattr st1 p1.prop = .ok (loadedVal p1 data) := by
    rw [obj_getattr_plain _ hp1plain]
    rw [hlook1 p1 hp1]
  have hread1 : spark_getattribute ⟨oid, pa, true, some u, false, .none, [], props⟩ w p1.prop =
      (.ok (loadedVal p1 data, st1),
       { w with fetchCount := w.fetchCount + 1, log := w.log ++ [entity_url pa oid] }) := by
    unfold spark_getattribute
    rw [hga0]
    simp [isNone, hfind, hfetch, hga1]
  refine ⟨spark_init_from_full_id props pv w hdec, loadedVal p1 data, st1, hread1, hloaded1, ?_⟩
  intro p2 hp2
  have hp2plain : plainName p2.prop = true := List.all_eq_true.mp hplainAll p2 hp2
  have hopt2 : truthy (dict_get data p2.prop) = false → p2.optional = true := by
    intro htr
    cases ho : p2.optional with
    | true => rfl
    | false =>
      exfalso
      have := hreq p2 hp2 ho
      rw [this] at htr
      cases htr
  refine ⟨loadedVal p2 data, ?_⟩
  exact read_loaded_zero_fetch st1 _ data p2 hp2plain (hprops1 ▸ hnd) (hprops1 ▸ hp2)
    hloaded1 (hlook1 p2 hp2) hopt2

/-- The `_load_data` loop raises `TypeError` at the first descriptor whose
required value is absent or falsy (descriptors before it having been set). -/
theorem load_props_first_missing (props : List SparkProperty) :
    ∀ (st : SparkBase) (data : PyDict),
      props.all (fun p => plainName p.prop) = true →
      ∀ p0, firstMissing props data = some p0 →
        load_props st props data =
          .error (.typeError ("needs keyword-only argument " ++ p0.prop)) := by
  induction props with
  | nil =>
    intro st data _ p0 h
    exact absurd h (by unfold firstMissing; simp)
  | cons p rest ih =>
    intro st data hplain p0 h
    rw [List.all_cons, Bool.and_eq_true] at hplain
    obtain ⟨hp_plain, hrest_plain⟩ := hplain
    have hbody : load_props st (p :: rest) data =
        (if truthy (dict_get data p.prop) then
          match obj_setattr st p.prop (castVal p (dict_get data p.prop)) with
          | .error e => .error e
          | .ok st1 => load_props st1 rest data
        else if p.optional then
          match obj_setattr st p.prop .none with
          | .error e => .error e
          | .ok st1 => load_props st1 rest data
        else .error (.typeError ("needs keyword-only argument " ++ p.prop))) := rfl
    have hfm : firstMissing (p :: rest) data =
        (if !p.optional && !truthy (dict_get data p.prop) then some p
         else firstMissing rest data) := by
      unfold firstMissing
      rw [List.find?]
      cases hc : !p.optional && !truthy (dict_get data p.prop) with
      | true => rw [if_pos rfl]
      | false => rw [if_neg (by decide)]
    rw [hfm] at h
    cases hc : !p.optional && !truthy (dict_get data p.prop) with
    | true =>
      rw [hc, if_pos rfl] at h
      have hp0 : p0 = p := by cases h; rfl
      subst hp0
      rw [Bool.and_eq_true] at hc
      obtain ⟨ho, ht⟩ := hc
      rw [Bool.not_eq_true'] at ho ht
      rw [hbody]
      rw [ht]
      rw [if_neg (by decide)]
      rw [ho]
      rw [if_neg (by decide)]
    | false =>
      rw [hc, if_neg (by decide)] at h
      rw [hbody]
      cases htr : truthy (dict_get data p.prop) with
      | true =>
        rw [if_pos rfl]
        rw [obj_setattr_plain st hp_plain]
        exact ih _ data hrest_plain p0 h
      | false =>
        have hopt : p.optional = true := by
          cases ho : p.optional with
          | true => rfl
          | false => rw [ho, htr] at hc; cases hc
        rw [if_neg (by decide)]
        rw [hopt, if_pos rfl]
        rw [obj_setattr_plain st hp_plain]
        exact ih _ data hrest_plain p0 h

/-- When some required descriptor has an absent or falsy value, the
`_load_data` loop never succeeds (whatever the schema's names). -/
theorem load_props_err_of_missing (props : List SparkProperty) :
    ∀ (st : SparkBase) (data : PyDict),
      (∃ p ∈ props, p.optional = false ∧ truthy (dict_get data p.prop) = false) →
      ∃ e, load_props st props data = .error e := by
  induction props with
  | nil =>
    intro st data h
    obtain ⟨p, hp, -⟩ := h
    exact absurd hp (List.not_mem_nil p)
  | cons q rest ih =>
    intro st data h
    have hbody : load_props st (q :: rest) data =
        (if truthy (dict_get data q.prop) then
          match obj_setattr st q.prop (castVal q (dict_get data q.prop)) with
          | .error e => .error e
          | .ok st1 => load_props st1 rest data
        else if q.optional then
          match obj_setattr st q.prop .none with
          | .error e => .error e
          | .ok st1 => load_props st1 rest data
        else .error (.typeError ("needs keyword-only argument " ++ q.prop))) := rfl
    obtain ⟨p, hp, hpo, hpt⟩ := h
    rw [hbody]
    cases htr : truthy (dict_get data q.prop) with
    | true =>
      have hprest : p ∈ rest := by
        cases hp with
        | head => rw [hpt] at htr; cases htr
        | tail _ hm => exact hm
      cases hset : obj_setattr st q.prop (castVal q (dict_get data q.prop)) with
      | error e => exact ⟨e, rfl⟩
      | ok st1 => exact ih st1 data ⟨p, hprest, hpo, hpt⟩
    | false =>
      cases hqo : q.optional with
      | true =>
        cases hset : obj_setattr st q.prop .none with
        | error e => exact ⟨e, rfl⟩
        | ok st1 =>
          have hprest : p ∈ rest := by
            cases hp with
            | head => rw [hpo] at hqo; cases hqo
            | tail _ hm => exact hm
          exact ih st1 data ⟨p, hprest, hpo, hpt⟩
      | false =>
        exact ⟨.typeError ("needs keyword-only argument " ++ q.prop), rfl⟩

theorem lookup_cons_pair {k' : String} {v' : PyVal} {rest : PyDict} {n : String} :
    List.lookup n ((k', v') :: rest) =
      (if n == k' then some v' else List.lookup n rest) := by
  simp only [List.lookup]
  cases h : n == k' with
  | true => rw [if_pos rfl]
  | false => rw [if_neg (by decide)]

theorem lookup_del_ne {d : PyDict} {k n : String} (h : (n == k) = false) :
    List.lookup n (dict_del d k) = List.lookup n d := by
  induction d with
  | nil => rfl
  | cons kv rest ih =>
    cases kv with
    | mk k' v' =>
      unfold dict_del
      rw [List.filter]
      cases hk : (k', v').1 == k with
      | true =>
        simp only [Bool.not_true]
        have heq : k' = k := eq_of_beq hk
        have hn : (n == k') = false := by rw [heq]; exact h
        rw [lookup_cons_pair, if_neg (by rw [hn]; exact (by decide))]
        exact ih
      | false =>
        simp only [Bool.not_false]
        rw [lookup_cons_pair, lookup_cons_pair]
        cases hn : n == k' with
        | true => rw [if_pos rfl, if_pos rfl]
        | false =>
          rw [if_neg (by decide), if_neg (by decide)]
          exact ih

theorem lookup_del_self {d : PyDict} {k : String} :
    List.lookup k (dict_del d k) = Option.none := by
  induction d with
  | nil => rfl
  | cons kv rest ih =>
    cases kv with
    | mk k' v' =>
      unfold dict_del
      rw [List.filter]
      cases hk : (k', v').1 == k with
      | true => simp only [Bool.not_true]; exact ih
      | false =>
        simp only [Bool.not_false]
        rw [lookup_cons_pair]
        rw [if_neg (by rw [show (k == k') = false from beq_symm_false hk]; exact (by decide))]
        exact ih

theorem get_del_ne {d : PyDict} {k n : String} (h : (n == k) = false) :
    dict_get (dict_del d k) n = dict_get d n := by
  unfold dict_get
  rw [lookup_del_ne h]

theorem get_del_self {d : PyDict} {k : String} :
    dict_get (dict_del d k) k = .none := by
  unfold dict_get
  rw [lookup_del_self]
  rfl

theorem has_del_ne {d : PyDict} {k n : String} (h : (n == k) = false) :
    dict_has (dict_del d k) n = dict_has d n := by
  unfold dict_has
  rw [lookup_del_ne h]

theorem nodup_same_name {props : List SparkProperty} {p q : SparkProperty}
    (hnd : namesNodup props = true) (hp : p ∈ props) (hq : q ∈ props)
    (h : (q.prop == p.prop) = true) : q = p := by
  induction props with
  | nil => cases hp
  | cons r rest ih =>
    unfold namesNodup at hnd
    rw [Bool.and_eq_true] at hnd
    obtain ⟨hr, hnd'⟩ := hnd
    cases hp with
    | head =>
      cases hq with
      | head => rfl
      | tail _ hqm =>
        exfalso
        have hx : rest.any (fun x => x.prop == p.prop) = true :=
          List.any_eq_true.mpr ⟨q, hqm, h⟩
        rw [hx] at hr
        cases hr
    | tail _ hpm =>
      cases hq with
      | head =>
        exfalso
        have hsym : (p.prop == q.prop) = true := by
          have hqp := eq_of_beq h
          rw [hqp]
          exact beq_self_eq_true _
        have hx : rest.any (fun x => x.prop == q.prop) = true :=
          List.any_eq_true.mpr ⟨p, hpm, hsym⟩
        rw [hx] at hr
        cases hr
      | tail _ hqm => exact ih hnd' hpm hqm

/-- Deleting a key whose every same-named descriptor is optional, when the
supplied value at that key is falsy, does not change the `_load_data`
descriptor loop at all. -/
theorem load_props_del_key (props : List SparkProperty) :
    ∀ (st : SparkBase) (data : PyDict) (k : String),
      (∀ q ∈ props, (q.prop == k) = true → q.optional = true) →
      truthy (dict_get data k) = false →
      load_props st props data = load_props st props (dict_del data k) := by
  induction props with
  | nil => intro st data k _ _; rfl
  | cons q rest ih =>
    intro st data k hk hfalsy
    have hbody1 : load_props st (q :: rest) data =
        (if truthy (dict_get data q.prop) then
          match obj_setattr st q.prop (castVal q (dict_get data q.prop)) with
          | .error e => .error e
          | .ok st1 => load_props st1 rest data
        else if q.optional then
          match obj_setattr st q.prop .none with
          | .error e => .error e
          | .ok st1 => load_props st1 rest data
        else .error (.typeError ("needs keyword-only argument " ++ q.prop))) := rfl
    have hbody2 : load_props st (q :: rest) (dict_del data k) =
        (if truthy (dict_get (dict_del data k) q.prop) then
          match obj_setattr st q.prop (castVal q (dict_get (dict_del data k) q.prop)) with
          | .error e => .error e
          | .ok st1 => load_props st1 rest (dict_del data k)
        else if q.optional then
          match obj_setattr st q.prop .none with
          | .error e => .error e
          | .ok st1 => load_props st1 rest (dict_del data k)
        else .error (.typeError ("needs keyword-only argument " ++ q.prop))) := rfl
    rw [hbody1, hbody2]
    have hkrest : ∀ q ∈ rest, (q.prop == k) = true → q.optional = true :=
      fun q hq => hk q (List.mem_cons_of_mem _ hq)
    cases hq : q.prop == k with
    | true =>
      have hqopt := hk q (List.mem_cons_self q rest) hq
      have heq : q.prop = k := eq_of_beq hq
      have hv1 : truthy (dict_get data q.prop) = false := by rw [heq]; exact hfalsy
      have hv2 : dict_get (dict_del data k) q.prop = .none := by rw [heq]; exact get_del_self
      rw [hv1, hv2]
      rw [if_neg (show ¬(false = true) by decide)]
      rw [if_neg (show ¬(truthy PyVal.none = true) by decide)]
      rw [hqopt]
      rw [if_pos (show (true = true) from rfl)]
      rw [if_pos (show (true = true) from rfl)]
      cases hset : obj_setattr st q.prop .none with
      | error e => rfl
      | ok st1 => exact ih st1 data k hkrest hfalsy
    | false =>
      have hvq : dict_get (dict_del data k) q.prop = dict_get data q.prop := get_del_ne hq
      rw [hvq]
      cases htr : truthy (dict_get data q.prop) with
      | true =>
        rw [if_pos (show (true = true) from rfl)]
        rw [if_pos (show (true = true) from rfl)]
        cases hset : obj_setattr st q.prop (castVal q (dict_get data q.prop)) with
        | error e => rfl
        | ok st1 => exact ih st1 data k hkrest hfalsy
      | false =>
        rw [if_neg (show ¬(false = true) by decide)]
        rw [if_neg (show ¬(false = true) by decide)]
        cases hqo : q.optional with
        | true =>
          rw [if_pos (show (true = true) from rfl)]
          rw [if_pos (show (true = true) from rfl)]
          cases hset : obj_setattr st q.prop .none with
          | error e => rfl
          | ok st1 => exact ih st1 data k hkrest hfalsy
        | false =>
          rw [if_neg (show ¬(false = true) by decide)]
          rw [if_neg (show ¬(false = true) by decide)]

/-- Deleting such a key does not change the final "all required keys present"
check either. -/
theorem required_all_present_del (props : List SparkProperty) :
    ∀ (data : PyDict) (k : String),
      (∀ q ∈ props, (q.prop == k) = true → q.optional = true) →
      required_all_present props data = required_all_present props (dict_del data k) := by
  induction props with
  | nil => intro data k _; rfl
  | cons q rest ih =>
    intro data k hk
    unfold required_all_present
    rw [List.all_cons, List.all_cons]
    have hrest := ih data k (fun q hq => hk q (List.mem_cons_of_mem _ hq))
    unfold required_all_present at hrest
    rw [hrest]
    cases hq : q.prop == k with
    | true =>
      rw [hk q (List.mem_cons_self q rest) hq]
      rfl
    | false =>
      rw [has_del_ne hq]

/-- C2 counterexample: `_load_data` does not record missing required fields
and continue - it raises `TypeError` at the first required descriptor whose
key is absent.  With the two-required-field schema and an empty mapping, the
load raises at `title` instead of recording both `title` and `emails` as
still-missing with `loaded=false`. -/
theorem c2_counterexample :
    load_data twoReqSt 0 [] = .error (.typeError "needs keyword-only argument title") := by
  rfl

/-- C2 (amended): for every input mapping, the load procedure raises
`TypeError` at the first schema descriptor (in schema order) whose required
value is absent or falsy; only when no required descriptor is missing does it
process every descriptor, and it then always transitions to `loaded=true` and
stamps the timestamp (the final required-keys-present check is always
satisfied when reached). -/
theorem c2_amended_load_raises_at_first_missing
    (props : List SparkProperty) (st : SparkBase) (data : PyDict) (clock : Nat)
    (hst : st.PROPERTIES = props)
    (hplain : props.all (fun p => plainName p.prop) = true) :
    (∀ p0, firstMissing props data = some p0 →
      load_data st clock data =
        .error (.typeError ("needs keyword-only argument " ++ p0.prop))) ∧
    (firstMissing props data = Option.none → namesNodup props = true →
      ∃ st', load_data st clock data = .ok st' ∧ st'.loaded = true ∧
        st'.loaded_at = .int clock) := by
  constructor
  · intro p0 h
    have he := load_props_first_missing props st data hplain p0 h
    unfold load_data
    rw [hst, he]
  · intro hnone hnd
    unfold firstMissing at hnone
    have hreq : ∀ p ∈ props, p.optional = false → truthy (dict_get data p.prop) = true := by
      intro p hp ho
      have hnp := List.find?_eq_none.mp hnone p hp
      cases ht : truthy (dict_get data p.prop) with
      | true => rfl
      | false =>
        exfalso
        apply hnp
        rw [ho, ht]
        rfl
    have hplain' : st.PROPERTIES.all (fun p => plainName p.prop) = true := by
      rw [hst]; exact hplain
    have hnd' : namesNodup st.PROPERTIES = true := by rw [hst]; exact hnd
    have hreq' : ∀ p ∈ st.PROPERTIES, p.optional = false →
        truthy (dict_get data p.prop) = true := by
      rw [hst]; exact hreq
    obtain ⟨st', h1, -, -, -, -, h5, h6, -, -⟩ := load_data_ok st data clock hplain' hnd' hreq'
    exact ⟨st', h1, h5, h6⟩

/-- Witness for the amended C2 at the two-required-field schema with an empty
mapping. -/
theorem c2_amended_witness :
    (twoReqSt.PROPERTIES = twoReqProps ∧
     twoReqProps.all (fun p => plainName p.prop) = true) ∧
    ((∀ p0, firstMissing twoReqProps [] = some p0 →
       load_data twoReqSt 0 [] =
         .error (.typeError ("needs keyword-only argument " ++ p0.prop))) ∧
     (firstMissing twoReqProps [] = Option.none → namesNodup twoReqProps = true →
       ∃ st', load_data twoReqSt 0 [] = .ok st' ∧ st'.loaded = true ∧
         st'.loaded_at = .int 0)) :=
  ⟨⟨rfl, by decide⟩,
   c2_amended_load_raises_at_first_missing twoReqProps twoReqSt [] 0 rfl (by decide)⟩

/-- C9: in the load procedure a falsy supplied value (empty string, `0`,
`False`, empty list, `None`, ...) is treated exactly as an absent key: when
the descriptor is required the load raises (so an entity whose required field
legitimately holds a falsy server value can never reach `loaded=true` through
it), and when the descriptor is optional the whole load procedure behaves
identically to running it with the key deleted (the field is set to `None`). -/
theorem c9_falsy_treated_as_absent
    (props : List SparkProperty) (st : SparkBase) (data : PyDict)
    (pk : SparkProperty) (clock : Nat)
    (hst : st.PROPERTIES = props)
    (hmem : pk ∈ props)
    (hhas : dict_has data pk.prop = true)
    (hfalsy : truthy (dict_get data pk.prop) = false) :
    (pk.optional = false → ∃ e, load_data st clock data = .error e) ∧
    (pk.optional = true → namesNodup props = true →
      load_data st clock data = load_data st clock (dict_del data pk.prop)) := by
  constructor
  · intro hreqk
    obtain ⟨e, he⟩ := load_props_err_of_missing props st data ⟨pk, hmem, hreqk, hfalsy⟩
    refine ⟨e, ?_⟩
    unfold load_data
    rw [hst, he]
  · intro hopt hnd
    have hk : ∀ q ∈ props, (q.prop == pk.prop) = true → q.optional = true := by
      intro q hq hbe
      have hqe : q = pk := nodup_same_name hnd hmem hq hbe
      rw [hqe]
      exact hopt
    have h1 := load_props_del_key props st data pk.prop hk hfalsy
    have h2 := required_all_present_del props data pk.prop hk
    unfold load_data
    rw [hst, h1, h2]

/-- Witness for C9: the optional `teamId` supplied as the empty string is
processed exactly as if absent. -/
theorem c9_witness :
    (freshRoom.PROPERTIES = roomProps ∧ teamIdProp ∈ roomProps ∧
     dict_has [("teamId", PyVal.str "")] teamIdProp.prop = true ∧
     truthy (dict_get [("teamId", PyVal.str "")] teamIdProp.prop) = false) ∧
    ((teamIdProp.optional = false →
       ∃ e, load_data freshRoom 0 [("teamId", PyVal.str "")] = .error e) ∧
     (teamIdProp.optional = true → namesNodup roomProps = true →
       load_data freshRoom 0 [("teamId", PyVal.str "")] =
         load_data freshRoom 0 (dict_del [("teamId", PyVal.str "")] teamIdProp.prop))) :=
  ⟨⟨rfl, by decide, by decide, by decide⟩,
   c9_falsy_treated_as_absent roomProps freshRoom [("teamId", PyVal.str "")] teamIdProp 0
     rfl (by decide) (by decide) (by decide)⟩

/-- C10: constructing any entity without a `path` keyword raises `KeyError`
before any identifier processing (no request is made and the world is
untouched), even when a valid opaque id is supplied positionally. -/
theorem c10_missing_path_raises_keyerror
    (props : List SparkProperty) (arg : Option String) (kwargs : PyDict) (w : World)
    (h : dict_has kwargs "path" = false) :
    spark_init props arg kwargs w = (.error (.keyError "path"), w) := by
  unfold dict_has at h
  unfold spark_init
  cases hl : List.lookup "path" kwargs with
  | none => rfl
  | some v => rw [hl] at h; simp at h

/-- Witness for C10: a valid opaque id and an `id` keyword are supplied, but
the missing `path` keyword still raises `KeyError`. -/
theorem c10_witness :
    dict_has [("id", PyVal.str "x")] "path" = false ∧
    spark_init roomProps (some roomOid) [("id", PyVal.str "x")] roomW =
      (.error (.keyError "path"), roomW) :=
  ⟨by decide,
   c10_missing_path_raises_keyerror roomProps (some roomOid) [("id", PyVal.str "x")] roomW
     (by decide)⟩

/-- Whatever `_fetch_data` returns, when the entity has a parent it performs
exactly one request, against the canonical URL. -/
theorem fetch_data_world (st : SparkBase) (w : World) (hpar : st.parent = true) :
    (fetch_data st w).2 =
      { w with fetchCount := w.fetchCount + 1,
               log := w.log ++ [entity_url st.path st.id] } := by
  unfold fetch_data
  rw [hpar, if_pos rfl]
  simp only [http_get]
  split
  · split <;> rfl
  · rfl

/-- `_fetch_data` never performs the abstract `update` mutation. -/
theorem fetch_data_updateCount (st : SparkBase) (w : World) :
    (fetch_data st w).2.updateCount = w.updateCount := by
  unfold fetch_data
  split
  · simp only [http_get]
    split
    · split <;> rfl
    · rfl
  · rfl

/-- C3 counterexample: writing the immutable `title` of an entity that is not
yet loaded does issue a remote call - `__setattr__` runs `_fetch_data()`
before checking mutability - and only then fails with the read-only
`AttributeError`.  The resulting world shows one fetch of the canonical URL
(and no `update` call), refuting "the write never issues any remote call ...
regardless of whether the entity is loaded". -/
theorem c3_counterexample :
    spark_setattr freshRoom roomW "title" (.str "Renamed") =
      (.error (.attributeError "title is read only"),
       { roomW with fetchCount := 1, log := [entity_url "rooms" roomOid] }) := by
  rfl

/-- C3 (amended): writing a schema-declared field with `mutable=false` always
fails and never reaches the `update` mutation; when the entity is loaded it
fails with the read-only `AttributeError` and no request is issued, but when
the entity is not loaded (and has a parent) exactly one fetch of the
canonical URL is issued before the failure. -/
theorem c3_amended_immutable_write
    (st : SparkBase) (w : World) (key : String) (v : PyVal) (p : SparkProperty)
    (hfind : lookupProp st.PROPERTIES key = some p)
    (hmut : p.mutable = false) :
    (∃ e w', spark_setattr st w key v = (.error e, w')) ∧
    (spark_setattr st w key v).2.updateCount = w.updateCount ∧
    (st.loaded = true →
      spark_setattr st w key v = (.error (.attributeError (key ++ " is read only")), w)) ∧
    (st.loaded = false → st.parent = true →
      (spark_setattr st w key v).2 =
        { w with fetchCount := w.fetchCount + 1,
                 log := w.log ++ [entity_url st.path st.id] }) := by
  have hbody : spark_setattr st w key v =
      (match (if !st.loaded then fetch_data st w else (.ok st, w)) with
       | (.error e, w1) => (.error e, w1)
       | (.ok st1, w1) =>
         if p.mutable then
           match update_call st1 w1 key v with
           | (.error e, w2) => (.error e, w2)
           | (.ok st2, w2) =>
             match obj_setattr st2 key v with
             | .error e => (.error e, w2)
             | .ok st3 => (.ok st3, w2)
         else (.error (.attributeError (key ++ " is read only")), w1)) := by
    unfold spark_setattr
    rw [hfind]
  cases hl : st.loaded with
  | true =>
    have hfetched : (if !st.loaded then fetch_data st w
        else ((.ok st, w) : Except PyErr SparkBase × World)) = (.ok st, w) := by
      rw [hl]
      rfl
    have hres : spark_setattr st w key v =
        (.error (.attributeError (key ++ " is read only")), w) := by
      rw [hbody, hfetched, hmut]
      rfl
    refine ⟨⟨_, _, hres⟩, by rw [hres], fun _ => hres, ?_⟩
    intro hcontra _
    cases hcontra
  | false =>
    have hfetched : (if !st.loaded then fetch_data st w
        else ((.ok st, w) : Except PyErr SparkBase × World)) = fetch_data st w := by
      rw [hl]
      rfl
    have hupd := fetch_data_updateCount st w
    cases hfd : fetch_data st w with
    | mk r w1 =>
      rw [hfd] at hupd
      cases r with
      | error e =>
        have hres : spark_setattr st w key v = (.error e, w1) := by
          rw [hbody, hfetched, hfd]
        refine ⟨⟨e, w1, hres⟩, by rw [hres]; exact hupd, ?_, ?_⟩
        · intro hcontra
          cases hcontra
        · intro _ hpar
          rw [hres]
          have hw := fetch_data_world st w hpar
          rw [hfd] at hw
          exact hw
      | ok st1 =>
        have hres : spark_setattr st w key v =
            (.error (.attributeError (key ++ " is read only")), w1) := by
          rw [hbody, hfetched, hfd, hmut]
          rfl
        refine ⟨⟨_, _, hres⟩, by rw [hres]; exact hupd, ?_, ?_⟩
        · intro hcontra
          cases hcontra
        · intro _ hpar
          rw [hres]
          have hw := fetch_data_world st w hpar
          rw [hfd] at hw
          exact hw

/-- Witness for the amended C3 at the unloaded `freshRoom` and its immutable
`title`. -/
theorem c3_amended_witness :
    (lookupProp freshRoom.PROPERTIES "title" = some titleProp ∧ titleProp.mutable = false) ∧
    ((∃ e w', spark_setattr freshRoom roomW "title" (.str "x") = (.error e, w')) ∧
     (spark_setattr freshRoom roomW "title" (.str "x")).2.updateCount = roomW.updateCount ∧
     (freshRoom.loaded = true →
       spark_setattr freshRoom roomW "title" (.str "x") =
         (.error (.attributeError ("title" ++ " is read only")), roomW)) ∧
     (freshRoom.loaded = false → freshRoom.parent = true →
       (spark_setattr freshRoom roomW "title" (.str "x")).2 =
         { roomW with fetchCount := roomW.fetchCount + 1,
                      log := roomW.log ++ [entity_url freshRoom.path freshRoom.id] })) :=
  ⟨⟨by decide, by decide⟩,
   c3_amended_immutable_write freshRoom roomW "title" (.str "x") titleProp (by decide)
     (by decide)⟩

/-- Witness for C1 at the room schema: construction from the opaque id alone,
first read of the required `title` (one fetch of the canonical URL), then
zero-fetch reads of every schema field of the loaded entity. -/
theorem c1_witness :
    (wfSchema roomProps = true ∧
     (∀ p ∈ roomProps, p.optional = false → truthy (dict_get roomData p.prop) = true) ∧
     decode_api_id roomOid = .ok ⟨"ab1", "rooms", roomOid⟩ ∧
     roomW.server (entity_url "rooms" roomOid) =
       { status_code := 200, body := roomData, next := Option.none } ∧
     titleProp ∈ roomProps ∧ titleProp.optional = false) ∧
    (spark_init roomProps (some roomOid) [("path", .str "rooms"), ("parent", .bool true)]
        roomW =
       (.ok ⟨roomOid, "rooms", true, some "ab1", false, .none, [], roomProps⟩, roomW) ∧
     ∃ v1 st1,
       spark_getattribute ⟨roomOid, "rooms", true, some "ab1", false, .none, [], roomProps⟩
           roomW titleProp.prop =
         (.ok (v1, st1),
          { roomW with fetchCount := roomW.fetchCount + 1,
                       log := roomW.log ++ [entity_url "rooms" roomOid] }) ∧
       st1.loaded = true ∧
       ∀ p2 ∈ roomProps, ∃ v2,
         spark_getattribute st1
             { roomW with fetchCount := roomW.fetchCount + 1,
                          log := roomW.log ++ [entity_url "rooms" roomOid] } p2.prop =
           (.ok (v2, st1),
            { roomW with fetchCount := roomW.fetchCount + 1,
                         log := roomW.log ++ [entity_url "rooms" roomOid] })) :=
  ⟨⟨by decide, by decide, by rfl, by rfl, by decide, by decide⟩,
   c1_first_read_one_fetch_then_zero roomProps roomData roomOid "ab1" "rooms" (.str "rooms")
     roomW titleProp (by decide) (by decide) (by rfl) (by rfl) (by decide) (by decide)⟩

/-- C4: the uuid branch of `__eq__` ignores its operand.  `c4ent` was built so
that combining `c4uuid` with its own `resource_path` reconstructs exactly its
opaque id (second conjunct), so the claim says `c4ent == c4uuid` must be True;
the code evaluates `uuid_to_api_id(self._id, self._path) == self._id`, which
never consults the operand and is False here (third conjunct).  The
opaque-id-string half of the claim does hold (fourth conjunct). -/
theorem c4_eval_uuid_equality_ignores_operand :
    is_uuid c4uuid = true ∧
    c4ent.id = uuid_to_api_id c4ent.path c4uuid ∧
    spark_eq c4ent (.str c4uuid) = false ∧
    spark_eq c4ent (.str c4ent.id) = true :=
  ⟨by decide, rfl, by rfl, by rfl⟩

/-- C5 counterexample: two entities with the same opaque id - one unloaded,
one fully loaded - hash identically but do not compare equal: `__eq__` only
recognizes opaque-id and uuid strings and returns False for an entity
operand, in both directions. -/
theorem c5_counterexample :
    freshRoom.id = loadedRoom.id ∧ freshRoom.loaded = false ∧ loadedRoom.loaded = true ∧
    spark_eq freshRoom (.ent loadedRoom) = false ∧
    spark_eq loadedRoom (.ent freshRoom) = false ∧
    spark_hash freshRoom = spark_hash loadedRoom :=
  ⟨rfl, rfl, rfl, rfl, rfl, rfl⟩

/-- C5 (amended): two entities with the same opaque id hash identically, but
entity-to-entity `==` evaluates to False (the dispatch predicates of `__eq__`
reject a non-string operand), whether loaded or not. -/
theorem c5_amended_same_id_hash_eq (st1 st2 : SparkBase) (h : st1.id = st2.id) :
    spark_hash st1 = spark_hash st2 ∧ spark_eq st1 (.ent st2) = false := by
  constructor
  · unfold spark_hash
    rw [h]
  · rfl

/-- Witness for the amended C5 at the unloaded/loaded pair. -/
theorem c5_amended_witness :
    freshRoom.id = loadedRoom.id ∧
    (spark_hash freshRoom = spark_hash loadedRoom ∧
     spark_eq freshRoom (.ent loadedRoom) = false) :=
  ⟨rfl, c5_amended_same_id_hash_eq freshRoom loadedRoom rfl⟩

/-- C6: probing resolution never happens.  Constructing from a bare uuid
enters `_load_from_id`'s probe loop, whose first statement `self.path = path`
goes through the overridden `__setattr__` down to `object.__setattr__` on the
getter-only `path` property and raises `AttributeError` ("cant set
attribute") on the very first candidate - before any fetch (the world comes
back untouched) and long before the `UnresolvableIdentifier` (`ValueError`)
of the exhausted-candidates clause could be reached. -/
theorem c6_eval_probe_crashes_on_path_set :
    is_uuid c6uuid = true ∧
    MAGIC.data.isPrefixOf c6uuid.data = false ∧
    spark_init roomProps (some c6uuid) [("path", .str "rooms"), ("parent", .bool true)]
        roomW =
      (.error (.attributeError "cant set attribute"), roomW) :=
  ⟨by decide, by decide, by rfl⟩

/-- C7: against the 2-pages-of-3-and-2-plus-empty-page server, `at(0)` does
one page fetch and returns item 0; but `at(4)` raises `IndexError` after the
second page fetch - the generator body executes `return` immediately after
prefetching page 2, discarding its items, and `finished` is never set (third
and fourth conjuncts: only page 1 is cached, `finished` is still False); the
subsequent `at(5)` then raises `IndexError` from the dead generator without
any further request and without the container ever observing the absence of a
next link. -/
theorem c7_eval_positional_paging :
    getitem_int pageC0 pageW 0 =
      (.ok ⟨pageRec 0⟩, pageC1, { pageW with fetchCount := 1, log := [pageBase] }) ∧
    getitem_int pageC1 { pageW with fetchCount := 1, log := [pageBase] } 4 =
      (.error (.indexError "index out of range"), pageC2,
       { pageW with fetchCount := 2, log := [pageBase, pageBase ++ "?p=2"] }) ∧
    pageC2.finished = false ∧
    pageC2.items = [pageRec 0, pageRec 1, pageRec 2] ∧
    getitem_int pageC2 { pageW with fetchCount := 2, log := [pageBase, pageBase ++ "?p=2"] }
        5 =
      (.error (.indexError "index out of range"), pageC2,
       { pageW with fetchCount := 2, log := [pageBase, pageBase ++ "?p=2"] }) :=
  ⟨by rfl, by rfl, rfl, rfl, by rfl⟩

/-- C8: key access on a container with a non-empty cache raises
`AttributeError` - the lookup comprehension evaluates `item.id` on cached raw
records, which are dicts - instead of returning the cached item (first
conjunct; no request is made and the cache is untouched, but the claimed
cache-hit behavior is unreachable).  Only with an empty cache does the
direct-by-id branch run: exactly one request to `api_base + key`, the entity
built from the response, and the cached sequence unchanged (second
conjunct). -/
theorem c8_eval_key_access :
    container_getitem hitC byIdW (.str roomOid) =
      (.error (.attributeError "object has no attribute id"), hitC, byIdW) ∧
    container_getitem pageC0 byIdW (.str roomOid) =
      (.ok (.ent ⟨.dict [("id", .str roomOid), ("title", .str "General")]⟩), pageC0,
       { byIdW with fetchCount := 1, log := [pageBase ++ roomOid] }) :=
  ⟨by rfl, by rfl⟩
